import Mathlib

/-!
Verification of the group-chat-deals reward server.

Shallow embedding of src/server/server.py: a Sanic HTTP service exposing
POST /send, which validates a `to` address, checks the recipient balance of
native ETH through the Coinbase Platform API, and dispatches either a fixed
native-ETH reward (balance exactly zero) or a fixed ERC-20 USDC reward
(any nonzero balance).

Modelling conventions:
* Python floats are modelled as rationals; the claims under scrutiny concern
  the algorithmic structure, not IEEE-754 rounding.
* Python dict.get with a default is modelled by Option.getD, and str.upper
  by an ASCII character map over the string data.
* Network and SDK effects are modelled by an explicit World of outcomes
  plus a trace of the downstream Calls the handler attempts.
-/

namespace P2D

/-! Configuration constants (server.py lines 15-29). -/

def WALLET_NAME : String := "p2d-wallet"

def NETWORK : String := "base-sepolia"

def USDC_CONTRACT : String := "0x036CbD53842c5426634e7929541eC2318f3dCF7e"

def USDC_DECIMALS : Nat := 6

def ETH_DECIMALS : Nat := 18

/-- Constant `ETH_REWARD_AMOUNT = 0.00001`, the ETH reward for new users. -/
def ETH_REWARD_AMOUNT : ℚ := 1 / 100000

/-- Constant `USDC_REWARD_AMOUNT = 0.01`, the USDC reward for users with ETH. -/
def USDC_REWARD_AMOUNT : ℚ := 1 / 100

/-- Placeholder contract address the balance checker matches for the native
asset (server.py line 212). -/
def ETH_PLACEHOLDER : String := "0xEeeeeEeeeEeEeeEeEeEeeEEEeeeeEeeeeeeeEEeE"

/-! Hex encoding helpers.

Python hex(n) sliced past the 0x prefix yields the lowercase hex digits of a
nonnegative n, with no leading zeros and "0" for zero; str.zfill(w) left-pads
with the character zero to width w. -/

/-- Lowercase hex digit character for a value below 16. -/
def hexDigitChar (n : Nat) : Char :=
  if n < 10 then Char.ofNat (48 + n) else Char.ofNat (87 + n)

/-- Model of Python hex(n) without its 0x prefix, for nonnegative n:
lowercase hex digits, no leading zeros, the single digit zero for zero. -/
def natToHex (n : Nat) : String :=
  if n = 0 then "0" else String.mk (((Nat.digits 16 n).map hexDigitChar).reverse)

/-- Numeric value of a hex digit character (case-insensitive, 0 otherwise). -/
def hexCharVal (c : Char) : Nat :=
  if 48 ≤ c.toNat ∧ c.toNat ≤ 57 then c.toNat - 48
  else if 97 ≤ c.toNat ∧ c.toNat ≤ 102 then c.toNat - 87
  else if 65 ≤ c.toNat ∧ c.toNat ≤ 70 then c.toNat - 55
  else 0

/-- One step of big-endian hex decoding. -/
def hexStep (acc : Nat) (c : Char) : Nat := 16 * acc + hexCharVal c

/-- Big-endian hex decoding of a list of characters. -/
def hexToNatL (l : List Char) : Nat := l.foldl hexStep 0

/-- Model of str.zfill(w) for a sign-free string: left-pad with the zero
character to width w. -/
def zfill (w : Nat) (s : String) : String :=
  String.mk (List.replicate (w - s.length) '0') ++ s

/-- Transfer encoder, server.py lines 51-57: selector "0xa9059cbb", then the
checksummed recipient address body zero-filled to 64 hex characters, then the
base-unit amount in hex zero-filled to 64 hex characters.  The source applies
Web3.to_checksum_address to the recipient and drops the 0x prefix; that is
modelled by `addrBody`, the 40 hex-digit body of the recipient address, since
EIP-55 checksumming only changes the letter case of those digits (the
keccak-based casing is outside the embedding) and hex decoding is
case-insensitive. -/
def encode_erc20_transfer (addrBody : String) (amount_units : Nat) : String :=
  "0xa9059cbb" ++ zfill 64 addrBody ++ zfill 64 (natToHex amount_units)

/-! Balance checker, server.py lines 173-227.

The checker issues a GET against the Platform API token-balances endpoint and
scans the returned entries.  Each entry is a JSON object with a token
sub-object (fields symbol and contractAddress) and an amount sub-object
(fields amount and decimals).  The source reads these with dict.get defaults:
empty string for symbol, nothing for contractAddress, the string zero for
amount, 18 for decimals; the base-unit amount string parsed by float() is
modelled as an optional natural number. -/

/-- Model of Python str.upper for the ASCII strings handled here. -/
def pyUpper (s : String) : String := String.mk (s.data.map Char.toUpper)

structure TokenInfo where
  symbol : Option String
  contractAddress : Option String
deriving DecidableEq

structure AmountInfo where
  amount : Option Nat
  decimals : Option Nat
deriving DecidableEq

structure BalanceEntry where
  token : TokenInfo
  amount : AmountInfo
deriving DecidableEq

/-- Outcome of the HTTP GET inside check_eth_balance: either some step of the
request raised, or a response arrived with a status code and a parsed list of
balance entries. -/
inductive BalanceApiOutcome
  | raises (msg : String)
  | responds (status : Nat) (balances : List BalanceEntry)
deriving DecidableEq

/-- Match condition from server.py lines 211-212: the symbol upper-cases to
ETH and the contractAddress equals the native-asset placeholder.  A missing
contractAddress compares unequal, as None does against a string in Python. -/
def isEthEntry (b : BalanceEntry) : Bool :=
  pyUpper (b.token.symbol.getD "") == "ETH" &&
    b.token.contractAddress == some ETH_PLACEHOLDER

/-- Balance checker check_eth_balance: 0 when the request raises anywhere
(the except branch), 0 on a non-200 status, otherwise the first entry
matching isEthEntry converted to human units by dividing the base-unit
amount by 10 to the reported decimal count, and 0 when no entry matches. -/
def check_eth_balance (o : BalanceApiOutcome) : ℚ :=
  match o with
  | .raises _ => 0
  | .responds status balances =>
      if status ≠ 200 then 0
      else
        match balances.find? isEthEntry with
        | some b =>
            (b.amount.amount.getD 0 : ℚ) / (10 : ℚ) ^ (b.amount.decimals.getD 18)
        | none => 0

/-! Reward amounts in base units.

send_eth computes int(amount times 10 to the 18) and send_usdc computes
int(amount times 10 to the 6); pyInt models Python int() on a rational,
truncating toward zero. -/

def pyInt (q : ℚ) : Int := if q < 0 then -((-q).floor) else q.floor

def ethRewardWei : Int := pyInt (ETH_REWARD_AMOUNT * 10 ^ ETH_DECIMALS)

def usdcRewardUnits : Nat := (pyInt (USDC_REWARD_AMOUNT * 10 ^ USDC_DECIMALS)).toNat

/-! The POST /send route handler, server.py lines 274-321. -/

/-- Value of a field of the parsed JSON request body. -/
inductive JsonVal
  | num (q : ℚ)
  | str (s : String)
  | bool (b : Bool)
  | null
deriving DecidableEq

/-- Parsed request body as the handler sees it after request.json or the
empty dict.  The handler reads only the field named to; amount is carried
because the spec talks about it.  An absent or null body parses to both
fields absent. -/
structure SendRequest where
  toAddr : Option String
  amount : Option JsonVal
deriving DecidableEq

/-- One downstream call attempted by the handler: wallet provisioning, the
balance query, or a transaction submission with the EIP-1559 fields the
source passes (destination, optional call data, value, network). -/
inductive Call
  | getWallet
  | balanceQuery
  | submitTx (fromAddr : String) (dest : String) (dataField : Option String)
      (value : Int) (network : String)
deriving DecidableEq

/-- Outcomes the external world would hand each downstream call: the
provisioned wallet address or an exception message, the balance API outcome,
and the transaction hash or exception message of either submission. -/
structure World where
  walletResult : Except String String
  balanceOutcome : BalanceApiOutcome
  sendEthResult : Except String String
  sendUsdcResult : Except String String

structure HttpResponse where
  status : Nat
  body : List (String × String)
deriving DecidableEq

/-- String attached to the amount field of an ETH success response.  The
source formats the reward float into an f-string; Python renders the float
literal 0.00001 as the string 1e-05. -/
def ETH_REWARD_LABEL : String := "1e-05"

/-- String attached to the amount field of a USDC success response; Python
renders the float literal 0.01 as the string 0.01. -/
def USDC_REWARD_LABEL : String := "0.01"

/-- Route handler send_reward_route: validates the recipient field (Python
truthiness: absent, None or empty string is falsy), provisions the wallet,
checks the recipient balance, branches on exact equality with zero, submits
the corresponding transfer, and shapes the JSON response; any exception from
the try block is caught and surfaced as a 500.  Returns the response paired
with the trace of downstream calls attempted.  As in encode_erc20_transfer,
checksumming of the recipient inside send_usdc is modelled by dropping the 0x
prefix. -/
def send_reward_route (w : World) (req : SendRequest) : HttpResponse × List Call :=
  match req.toAddr with
  | none => (⟨400, [("error", "Missing `to` address")]⟩, [])
  | some to_addr =>
      if to_addr = "" then (⟨400, [("error", "Missing `to` address")]⟩, [])
      else
        match w.walletResult with
        | .error e =>
            (⟨500, [("error", "Failed to send reward: " ++ e)]⟩, [.getWallet])
        | .ok walletAddr =>
            let eth_balance := check_eth_balance w.balanceOutcome
            if eth_balance = 0 then
              let call := Call.submitTx walletAddr to_addr none ethRewardWei NETWORK
              match w.sendEthResult with
              | .error e =>
                  (⟨500, [("error", "Failed to send reward: " ++ e)]⟩,
                    [.getWallet, .balanceQuery, call])
              | .ok tx =>
                  (⟨200, [("status", "completed"), ("transaction_hash", tx),
                      ("reward_type", "ETH"), ("amount", ETH_REWARD_LABEL),
                      ("reason", "new_user")]⟩,
                    [.getWallet, .balanceQuery, call])
            else
              let call := Call.submitTx walletAddr USDC_CONTRACT
                (some (encode_erc20_transfer (to_addr.drop 2) usdcRewardUnits))
                0 NETWORK
              match w.sendUsdcResult with
              | .error e =>
                  (⟨500, [("error", "Failed to send reward: " ++ e)]⟩,
                    [.getWallet, .balanceQuery, call])
              | .ok tx =>
                  (⟨200, [("status", "completed"), ("transaction_hash", tx),
                      ("reward_type", "USDC"), ("amount", USDC_REWARD_LABEL),
                      ("reason", "existing_user")]⟩,
                    [.getWallet, .balanceQuery, call])

/-- Test for a submission call in a trace. -/
def isSubmitCall : Call → Bool
  | .submitTx _ _ _ _ _ => true
  | _ => false

/-! Wallet provisioning, server.py lines 47-49.

Modelled from the spec: get_or_create_wallet forwards to
cdp.evm.get_or_create_account in the external CDP SDK, which is not part of
this repository.  Following section 4.2 of the spec — looks up an existing
wallet by name; if none exists, creates one with that name — the platform
state is a name-to-address table plus a fresh-address allocator. -/

structure WalletPlatform where
  accounts : List (String × String)
  fresh : Nat

/-- Modelled from the spec: find-by-name, else create with that name. -/
def get_or_create_account (p : WalletPlatform) (name : String) :
    String × WalletPlatform :=
  match p.accounts.lookup name with
  | some addr => (addr, p)
  | none =>
      let addr := "0x" ++ toString p.fresh
      (addr, ⟨(name, addr) :: p.accounts, p.fresh + 1⟩)

/-- Helper get_or_create_wallet: get or create the EVM wallet named
WALLET_NAME. -/
def get_or_create_wallet (p : WalletPlatform) : String × WalletPlatform :=
  get_or_create_account p WALLET_NAME

/-! Sample worlds used by witnesses and counterexamples. -/

/-- World where every downstream call succeeds and the recipient has no
balance entries at all. -/
def emptyBalanceWorld : World :=
  ⟨.ok "0xWallet", .responds 200 [], .ok "0xTxEth", .ok "0xTxUsdc"⟩

/-- Balance entry for one base unit of native ETH reported with zero
decimals, giving a positive human-readable balance of one. -/
def sampleEthEntry : BalanceEntry :=
  ⟨⟨some "ETH", some ETH_PLACEHOLDER⟩, ⟨some 1, some 0⟩⟩

/-- World where the recipient holds a positive ETH balance. -/
def positiveBalanceWorld : World :=
  ⟨.ok "0xWallet", .responds 200 [sampleEthEntry], .ok "0xTxEth", .ok "0xTxUsdc"⟩

/-- World where the balance query raises but both submissions succeed. -/
def raisingBalanceWorld : World :=
  ⟨.ok "0xWallet", .raises "boom", .ok "0xTxEth", .ok "0xTxUsdc"⟩

/-- World where the ETH submission raises. -/
def ethFailWorld : World :=
  ⟨.ok "0xWallet", .responds 200 [], .error "rpc down", .ok "0xTxUsdc"⟩

/-- World where the USDC submission raises. -/
def usdcFailWorld : World :=
  ⟨.ok "0xWallet", .responds 200 [sampleEthEntry], .ok "0xTxEth", .error "rpc down"⟩

/-- World where wallet provisioning raises. -/
def walletFailWorld : World :=
  ⟨.error "cdp down", .responds 200 [], .ok "0xTxEth", .ok "0xTxUsdc"⟩

/-! Hex helper lemmas. -/

theorem hexCharVal_hexDigitChar {d : Nat} (h : d < 16) :
    hexCharVal (hexDigitChar d) = d := by
  interval_cases d <;> decide

theorem hexToNatL_replicate_zero_append (k : Nat) (l : List Char) :
    hexToNatL (List.replicate k '0' ++ l) = hexToNatL l := by
  induction k with
  | zero => rfl
  | succ n ih =>
      show List.foldl hexStep (hexStep 0 '0') (List.replicate n '0' ++ l) = hexToNatL l
      have h0 : hexStep 0 '0' = 0 := by decide
      rw [h0]
      exact ih

theorem hexFold_digits (L : List Nat) (hL : ∀ d ∈ L, d < 16) (a : Nat) :
    List.foldl hexStep a ((L.map hexDigitChar).reverse) =
      a * 16 ^ L.length + Nat.ofDigits 16 L := by
  induction L generalizing a with
  | nil => simp [Nat.ofDigits_nil]
  | cons d T ih =>
      have hd : d < 16 := hL d (by simp)
      have hT : ∀ x ∈ T, x < 16 := fun x hx => hL x (by simp [hx])
      rw [List.map_cons, List.reverse_cons, List.foldl_append, ih hT a]
      simp only [List.foldl_cons, List.foldl_nil, hexStep,
        hexCharVal_hexDigitChar hd, Nat.ofDigits_cons, List.length_cons]
      ring

theorem hexToNatL_natToHex (n : Nat) : hexToNatL (natToHex n).data = n := by
  by_cases h : n = 0
  · subst h; decide
  · unfold natToHex
    rw [if_neg h]
    show List.foldl hexStep 0 (((Nat.digits 16 n).map hexDigitChar).reverse) = n
    rw [hexFold_digits _ (fun d hd => Nat.digits_lt_base (by norm_num) hd) 0]
    simp [Nat.ofDigits_digits]

theorem natToHex_length_le {n k : Nat} (hk : 1 ≤ k) (h : n < 16 ^ k) :
    (natToHex n).length ≤ k := by
  by_cases h0 : n = 0
  · subst h0
    have h1 : (natToHex 0).length = 1 := by decide
    omega
  · unfold natToHex
    rw [if_neg h0]
    show (((Nat.digits 16 n).map hexDigitChar).reverse).length ≤ k
    rw [List.length_reverse, List.length_map,
      Nat.digits_len 16 n (by norm_num) h0]
    have hlog := (Nat.lt_pow_iff_log_lt (by norm_num : 1 < 16) h0).mp h
    omega

theorem zfill_data (w : Nat) (s : String) :
    (zfill w s).data = List.replicate (w - s.length) '0' ++ s.data := by
  unfold zfill
  rw [String.data_append]

theorem zfill_length {w : Nat} {s : String} (h : s.length ≤ w) :
    (zfill w s).length = w := by
  unfold zfill
  rw [String.length_append]
  show (List.replicate (w - s.length) '0').length + s.length = w
  rw [List.length_replicate]
  omega

/-! Route helper lemmas: one per control-flow path of the handler, plus the
fixed base-unit amounts. -/

theorem ethRewardWei_eq : ethRewardWei = 10000000000000 := by
  have h : ETH_REWARD_AMOUNT * 10 ^ ETH_DECIMALS = (10000000000000 : ℚ) := by
    norm_num [ETH_REWARD_AMOUNT, ETH_DECIMALS]
  unfold ethRewardWei
  rw [h]
  decide

theorem usdcRewardUnits_eq : usdcRewardUnits = 10000 := by
  have h : USDC_REWARD_AMOUNT * 10 ^ USDC_DECIMALS = (10000 : ℚ) := by
    norm_num [USDC_REWARD_AMOUNT, USDC_DECIMALS]
  unfold usdcRewardUnits
  rw [h]
  decide

theorem route_wallet_err (w : World) (a : String) (amt : Option JsonVal)
    (e : String) (h1 : a ≠ "") (hw : w.walletResult = .error e) :
    send_reward_route w ⟨some a, amt⟩ =
      (⟨500, [("error", "Failed to send reward: " ++ e)]⟩, [.getWallet]) := by
  rcases w with ⟨wr, bo, se, su⟩
  simp only at hw
  subst hw
  simp only [send_reward_route]
  rw [if_neg h1]

theorem route_eth_ok (w : World) (a : String) (amt : Option JsonVal)
    (addr tx : String) (h1 : a ≠ "") (hw : w.walletResult = .ok addr)
    (hb : check_eth_balance w.balanceOutcome = 0)
    (hs : w.sendEthResult = .ok tx) :
    send_reward_route w ⟨some a, amt⟩ =
      (⟨200, [("status", "completed"), ("transaction_hash", tx),
          ("reward_type", "ETH"), ("amount", ETH_REWARD_LABEL),
          ("reason", "new_user")]⟩,
        [.getWallet, .balanceQuery, .submitTx addr a none ethRewardWei NETWORK]) := by
  rcases w with ⟨wr, bo, se, su⟩
  simp only at hw hs hb
  subst hw
  subst hs
  simp only [send_reward_route]
  rw [if_neg h1, if_pos hb]

theorem route_eth_err (w : World) (a : String) (amt : Option JsonVal)
    (addr e : String) (h1 : a ≠ "") (hw : w.walletResult = .ok addr)
    (hb : check_eth_balance w.balanceOutcome = 0)
    (hs : w.sendEthResult = .error e) :
    send_reward_route w ⟨some a, amt⟩ =
      (⟨500, [("error", "Failed to send reward: " ++ e)]⟩,
        [.getWallet, .balanceQuery, .submitTx addr a none ethRewardWei NETWORK]) := by
  rcases w with ⟨wr, bo, se, su⟩
  simp only at hw hs hb
  subst hw
  subst hs
  simp only [send_reward_route]
  rw [if_neg h1, if_pos hb]

theorem route_usdc_ok (w : World) (a : String) (amt : Option JsonVal)
    (addr tx : String) (h1 : a ≠ "") (hw : w.walletResult = .ok addr)
    (hb : check_eth_balance w.balanceOutcome ≠ 0)
    (hs : w.sendUsdcResult = .ok tx) :
    send_reward_route w ⟨some a, amt⟩ =
      (⟨200, [("status", "completed"), ("transaction_hash", tx),
          ("reward_type", "USDC"), ("amount", USDC_REWARD_LABEL),
          ("reason", "existing_user")]⟩,
        [.getWallet, .balanceQuery,
          .submitTx addr USDC_CONTRACT
            (some (encode_erc20_transfer (a.drop 2) usdcRewardUnits)) 0 NETWORK]) := by
  rcases w with ⟨wr, bo, se, su⟩
  simp only at hw hs hb
  subst hw
  subst hs
  simp only [send_reward_route]
  rw [if_neg h1, if_neg hb]

theorem route_usdc_err (w : World) (a : String) (amt : Option JsonVal)
    (addr e : String) (h1 : a ≠ "") (hw : w.walletResult = .ok addr)
    (hb : check_eth_balance w.balanceOutcome ≠ 0)
    (hs : w.sendUsdcResult = .error e) :
    send_reward_route w ⟨some a, amt⟩ =
      (⟨500, [("error", "Failed to send reward: " ++ e)]⟩,
        [.getWallet, .balanceQuery,
          .submitTx addr USDC_CONTRACT
            (some (encode_erc20_transfer (a.drop 2) usdcRewardUnits)) 0 NETWORK]) := by
  rcases w with ⟨wr, bo, se, su⟩
  simp only at hw hs hb
  subst hw
  subst hs
  simp only [send_reward_route]
  rw [if_neg h1, if_neg hb]

theorem route_eth_trace (w : World) (a : String) (amt : Option JsonVal)
    (addr : String) (h1 : a ≠ "") (hw : w.walletResult = .ok addr)
    (hb : check_eth_balance w.balanceOutcome = 0) :
    (send_reward_route w ⟨some a, amt⟩).2 =
      [.getWallet, .balanceQuery, .submitTx addr a none ethRewardWei NETWORK] := by
  rcases hse : w.sendEthResult with e | tx
  · rw [route_eth_err w a amt addr e h1 hw hb hse]
  · rw [route_eth_ok w a amt addr tx h1 hw hb hse]

theorem route_usdc_trace (w : World) (a : String) (amt : Option JsonVal)
    (addr : String) (h1 : a ≠ "") (hw : w.walletResult = .ok addr)
    (hb : check_eth_balance w.balanceOutcome ≠ 0) :
    (send_reward_route w ⟨some a, amt⟩).2 =
      [.getWallet, .balanceQuery,
        .submitTx addr USDC_CONTRACT
          (some (encode_erc20_transfer (a.drop 2) usdcRewardUnits)) 0 NETWORK] := by
  rcases hse : w.sendUsdcResult with e | tx
  · rw [route_usdc_err w a amt addr e h1 hw hb hse]
  · rw [route_usdc_ok w a amt addr tx h1 hw hb hse]

theorem sampleEthEntry_matches : isEthEntry sampleEthEntry = true := by decide

theorem check_positiveBalanceWorld :
    check_eth_balance positiveBalanceWorld.balanceOutcome = 1 := by
  have hf : List.find? isEthEntry [sampleEthEntry] = some sampleEthEntry := by
    decide
  show check_eth_balance (.responds 200 [sampleEthEntry]) = 1
  simp only [check_eth_balance, hf]
  norm_num [sampleEthEntry]

theorem route_submits_le_one (w : World) (req : SendRequest) :
    ((send_reward_route w req).2.filter isSubmitCall).length ≤ 1 := by
  rcases req with ⟨t, amt⟩
  rcases t with _ | a
  · simp [send_reward_route]
  · simp only [send_reward_route]
    by_cases h1 : a = ""
    · rw [if_pos h1]; simp
    · rw [if_neg h1]
      rcases w with ⟨wr, bo, se, su⟩
      rcases wr with e | addr
      · simp [isSubmitCall]
      · simp only
        by_cases hb : check_eth_balance bo = 0
        · rw [if_pos hb]
          rcases se with e | tx <;> simp [isSubmitCall]
        · rw [if_neg hb]
          rcases su with e | tx <;> simp [isSubmitCall]

/-! Claim theorems. -/

/-- C1: for every POST /send request with a valid recipient address and a
provisioned wallet, the dispatcher queries the recipient balance and branches
exactly two ways on exact equality with zero: a zero observed balance submits
a single native ETH transfer of the fixed reward amount (10000000000000 wei,
i.e. 0.00001 ETH), and any nonzero — in particular any positive — observed
balance submits a single ERC-20 USDC transfer of the fixed reward amount
(10000 base units, i.e. 0.01 USDC); no other branch, threshold, or
hysteresis exists. -/
theorem claim_C1_reward_branch (w : World) (a : String) (amt : Option JsonVal)
    (addr : String) (h1 : a ≠ "") (hw : w.walletResult = .ok addr) :
    (check_eth_balance w.balanceOutcome = 0 →
        (send_reward_route w ⟨some a, amt⟩).2 =
          [.getWallet, .balanceQuery, .submitTx addr a none ethRewardWei NETWORK]) ∧
    (check_eth_balance w.balanceOutcome ≠ 0 →
        (send_reward_route w ⟨some a, amt⟩).2 =
          [.getWallet, .balanceQuery,
            .submitTx addr USDC_CONTRACT
              (some (encode_erc20_transfer (a.drop 2) usdcRewardUnits)) 0 NETWORK]) ∧
    ethRewardWei = 10000000000000 ∧ usdcRewardUnits = 10000 :=
  ⟨fun hb => route_eth_trace w a amt addr h1 hw hb,
   fun hb => route_usdc_trace w a amt addr h1 hw hb,
   ethRewardWei_eq, usdcRewardUnits_eq⟩

/-- Witness for C1 at concrete worlds: a zero balance yields the ETH
submission, a positive balance yields the USDC submission. -/
theorem claim_C1_reward_branch_witness :
    (send_reward_route emptyBalanceWorld ⟨some "0xAbCd", none⟩).2 =
      [.getWallet, .balanceQuery,
        .submitTx "0xWallet" "0xAbCd" none ethRewardWei NETWORK] ∧
    (send_reward_route positiveBalanceWorld ⟨some "0xAbCd", none⟩).2 =
      [.getWallet, .balanceQuery,
        .submitTx "0xWallet" USDC_CONTRACT
          (some (encode_erc20_transfer ("0xAbCd".drop 2) usdcRewardUnits))
          0 NETWORK] :=
  ⟨(claim_C1_reward_branch emptyBalanceWorld "0xAbCd" none "0xWallet"
      (by decide) rfl).1 rfl,
   (claim_C1_reward_branch positiveBalanceWorld "0xAbCd" none "0xWallet"
      (by decide) rfl).2.1
     (by rw [check_positiveBalanceWorld]; exact one_ne_zero)⟩

/-- C2: the ERC-20 transfer encoder is a pure function of recipient and
base-unit amount whose output is the transfer selector, the recipient left
padded with zeros to 32 bytes, and the amount left padded with zeros to 32
bytes, hex-encoded; the trailing 64 hex characters decode back to the amount
and the middle 64 hex characters are the zero-padded recipient and decode
back to its numeric value. -/
theorem claim_C2_encoder_fields (addrBody : String) (amount : Nat)
    (h40 : addrBody.length = 40) (hlt : amount < 16 ^ 64) :
    (encode_erc20_transfer addrBody amount).length = 138 ∧
    (encode_erc20_transfer addrBody amount).data.take 10 = "0xa9059cbb".data ∧
    ((encode_erc20_transfer addrBody amount).data.drop 10).take 64 =
      List.replicate 24 '0' ++ addrBody.data ∧
    hexToNatL (((encode_erc20_transfer addrBody amount).data.drop 10).take 64) =
      hexToNatL addrBody.data ∧
    hexToNatL ((encode_erc20_transfer addrBody amount).data.drop 74) = amount := by
  have h40' : addrBody.length ≤ 64 := by omega
  have hhex : (natToHex amount).length ≤ 64 :=
    natToHex_length_le (by norm_num) hlt
  have hAlen : ("0xa9059cbb" : String).data.length = 10 := rfl
  have hBlen : (zfill 64 addrBody).data.length = 64 := zfill_length h40'
  have hClen : (zfill 64 (natToHex amount)).data.length = 64 := zfill_length hhex
  have hB : (zfill 64 addrBody).data = List.replicate 24 '0' ++ addrBody.data := by
    rw [zfill_data, h40]
  have hdata : (encode_erc20_transfer addrBody amount).data =
      ("0xa9059cbb".data ++ (zfill 64 addrBody).data) ++
        (zfill 64 (natToHex amount)).data := by
    unfold encode_erc20_transfer
    rw [String.data_append, String.data_append]
  have hAB : ("0xa9059cbb".data ++ (zfill 64 addrBody).data).length = 74 := by
    rw [List.length_append, hAlen, hBlen]
  refine ⟨?_, ?_, ?_, ?_, ?_⟩
  · show (encode_erc20_transfer addrBody amount).data.length = 138
    rw [hdata, List.length_append, List.length_append, hAlen, hBlen, hClen]
  · rw [hdata, List.append_assoc]
    exact List.take_left' hAlen
  · rw [hdata, List.append_assoc, List.drop_left' hAlen, List.take_left' hBlen]
    exact hB
  · rw [hdata, List.append_assoc, List.drop_left' hAlen, List.take_left' hBlen,
      hB]
    exact hexToNatL_replicate_zero_append 24 addrBody.data
  · rw [hdata, List.drop_left' hAB, zfill_data,
      hexToNatL_replicate_zero_append]
    exact hexToNatL_natToHex amount

/-- Witness for C2 at the example of the spec: recipient body of the USDC
contract and amount 1500000 (1.5 units at 6 decimals). -/
theorem claim_C2_encoder_fields_witness :
    hexToNatL ((encode_erc20_transfer
        "036CbD53842c5426634e7929541eC2318f3dCF7e" 1500000).data.drop 74)
      = 1500000 ∧
    ((encode_erc20_transfer
        "036CbD53842c5426634e7929541eC2318f3dCF7e" 1500000).data.drop 10).take 64
      = List.replicate 24 '0' ++
          "036CbD53842c5426634e7929541eC2318f3dCF7e".data :=
  ⟨(claim_C2_encoder_fields "036CbD53842c5426634e7929541eC2318f3dCF7e" 1500000
      (by decide) (by decide)).2.2.2.2,
   (claim_C2_encoder_fields "036CbD53842c5426634e7929541eC2318f3dCF7e" 1500000
      (by decide) (by decide)).2.2.1⟩

/-- C3: every POST /send request missing the recipient field (including an
absent or null body, both of which parse to an absent field) is answered with
status 400 and an error message, and no downstream call is attempted. -/
theorem claim_C3_missing_to (w : World) (amt : Option JsonVal) :
    (send_reward_route w ⟨none, amt⟩).1.status = 400 ∧
    (send_reward_route w ⟨none, amt⟩).1.body =
      [("error", "Missing `to` address")] ∧
    (send_reward_route w ⟨none, amt⟩).2 = [] :=
  ⟨rfl, rfl, rfl⟩

/-- Witness for C3 at a concrete world and request. -/
theorem claim_C3_missing_to_witness :
    (send_reward_route emptyBalanceWorld ⟨none, none⟩).1.status = 400 ∧
    (send_reward_route emptyBalanceWorld ⟨none, none⟩).2 = [] :=
  ⟨(claim_C3_missing_to emptyBalanceWorld none).1,
   (claim_C3_missing_to emptyBalanceWorld none).2.2⟩

/-- Counterexample to C4: a request with a valid recipient and the strictly
negative amount -1 is not answered with 400; it is processed in full, with
three downstream calls attempted, and succeeds with status 200. -/
theorem claim_C4_cex :
    (send_reward_route emptyBalanceWorld
      ⟨some "0xAbCd", some (.num (-1))⟩).1.status = 200 ∧
    (send_reward_route emptyBalanceWorld
      ⟨some "0xAbCd", some (.num (-1))⟩).2.length = 3 :=
  ⟨rfl, rfl⟩

/-- C4 amended: the reward dispatcher ignores the amount field entirely; the
response and the downstream calls are identical whatever amount the request
carries (missing, non-numeric, or non-positive), and no 400 is issued on
account of the amount. -/
theorem claim_C4_amount_ignored (w : World) (t : Option String)
    (amt amt2 : Option JsonVal) :
    send_reward_route w ⟨t, amt⟩ = send_reward_route w ⟨t, amt2⟩ := rfl

/-- Witness for the amended C4 at a concrete pair of requests. -/
theorem claim_C4_amount_ignored_witness :
    send_reward_route emptyBalanceWorld ⟨some "0xAbCd", some (.num (-1))⟩ =
      send_reward_route emptyBalanceWorld ⟨some "0xAbCd", none⟩ :=
  claim_C4_amount_ignored emptyBalanceWorld (some "0xAbCd")
    (some (.num (-1))) none

/-- Counterexample to C5: on a successful USDC dispatch the response carries
amount "0.01" — the bare numeric string — and no field of the response equals
the combined amount-plus-symbol label "0.01 USDC" the claim describes. -/
theorem claim_C5_cex :
    (send_reward_route positiveBalanceWorld
      ⟨some "0xAbCd", some (.num 1)⟩).1.status = 200 ∧
    (send_reward_route positiveBalanceWorld
      ⟨some "0xAbCd", some (.num 1)⟩).1.body.lookup "amount" = some "0.01" ∧
    ∀ f ∈ (send_reward_route positiveBalanceWorld
      ⟨some "0xAbCd", some (.num 1)⟩).1.body, f.2 ≠ "0.01 USDC" := by
  have h := route_usdc_ok positiveBalanceWorld "0xAbCd" (some (.num 1))
    "0xWallet" "0xTxUsdc" (by decide) rfl
    (by rw [check_positiveBalanceWorld]; exact one_ne_zero) rfl
  rw [h]
  exact ⟨rfl, rfl, by decide⟩

/-- C5 amended: on every successful dispatch the endpoint returns 200 with a
JSON object holding the status "completed", the transaction handle, the
reward type, a reason, and an amount field holding only the numeric amount
string (the Python str of the float), without the asset symbol. -/
theorem claim_C5_response_shape (w : World) (a : String) (amt : Option JsonVal)
    (addr tx : String) (h1 : a ≠ "") (hw : w.walletResult = .ok addr) :
    (check_eth_balance w.balanceOutcome = 0 → w.sendEthResult = .ok tx →
        (send_reward_route w ⟨some a, amt⟩).1 =
          ⟨200, [("status", "completed"), ("transaction_hash", tx),
            ("reward_type", "ETH"), ("amount", ETH_REWARD_LABEL),
            ("reason", "new_user")]⟩) ∧
    (check_eth_balance w.balanceOutcome ≠ 0 → w.sendUsdcResult = .ok tx →
        (send_reward_route w ⟨some a, amt⟩).1 =
          ⟨200, [("status", "completed"), ("transaction_hash", tx),
            ("reward_type", "USDC"), ("amount", USDC_REWARD_LABEL),
            ("reason", "existing_user")]⟩) :=
  ⟨fun hb hs => by rw [route_eth_ok w a amt addr tx h1 hw hb hs],
   fun hb hs => by rw [route_usdc_ok w a amt addr tx h1 hw hb hs]⟩

/-- Witness for the amended C5: concrete successful ETH dispatch. -/
theorem claim_C5_response_shape_witness :
    (send_reward_route emptyBalanceWorld ⟨some "0xAbCd", none⟩).1 =
      ⟨200, [("status", "completed"), ("transaction_hash", "0xTxEth"),
        ("reward_type", "ETH"), ("amount", ETH_REWARD_LABEL),
        ("reason", "new_user")]⟩ :=
  (claim_C5_response_shape emptyBalanceWorld "0xAbCd" none "0xWallet" "0xTxEth"
    (by decide) rfl).1 rfl rfl

/-- Counterexample to C6: a request during which a downstream call — the
balance API — raises is nevertheless answered with status 200, not 500: the
balance checker swallows the exception and the ETH path proceeds. -/
theorem claim_C6_cex :
    (send_reward_route raisingBalanceWorld ⟨some "0xAbCd", none⟩).1.status = 200 ∧
    (send_reward_route raisingBalanceWorld ⟨some "0xAbCd", none⟩).1.status ≠ 500 :=
  ⟨rfl, by decide⟩

/-- C6 amended: when wallet provisioning or the transaction submission
raises, the endpoint returns 500 with the exception text embedded, with no
retry and no second submission (at most one submission is ever attempted on
any request); balance-API failures do not surface as 500 because the balance
checker swallows them. -/
theorem claim_C6_downstream_errors (w : World) (a : String)
    (amt : Option JsonVal) (e : String) (h1 : a ≠ "") :
    (w.walletResult = .error e →
        (send_reward_route w ⟨some a, amt⟩).1 =
          ⟨500, [("error", "Failed to send reward: " ++ e)]⟩ ∧
        (send_reward_route w ⟨some a, amt⟩).2.filter isSubmitCall = []) ∧
    (∀ addr, w.walletResult = .ok addr →
        check_eth_balance w.balanceOutcome = 0 → w.sendEthResult = .error e →
        (send_reward_route w ⟨some a, amt⟩).1 =
          ⟨500, [("error", "Failed to send reward: " ++ e)]⟩ ∧
        ((send_reward_route w ⟨some a, amt⟩).2.filter isSubmitCall).length = 1) ∧
    (∀ addr, w.walletResult = .ok addr →
        check_eth_balance w.balanceOutcome ≠ 0 → w.sendUsdcResult = .error e →
        (send_reward_route w ⟨some a, amt⟩).1 =
          ⟨500, [("error", "Failed to send reward: " ++ e)]⟩ ∧
        ((send_reward_route w ⟨some a, amt⟩).2.filter isSubmitCall).length = 1) ∧
    (∀ req : SendRequest,
        ((send_reward_route w req).2.filter isSubmitCall).length ≤ 1) := by
  refine ⟨fun hw => ?_, fun addr hw hb hs => ?_, fun addr hw hb hs => ?_,
    fun req => route_submits_le_one w req⟩
  · rw [route_wallet_err w a amt e h1 hw]
    exact ⟨rfl, rfl⟩
  · rw [route_eth_err w a amt addr e h1 hw hb hs]
    exact ⟨rfl, rfl⟩
  · rw [route_usdc_err w a amt addr e h1 hw hb hs]
    exact ⟨rfl, rfl⟩

/-- Witness for the amended C6: a failing ETH submission at a concrete world
yields the 500 with the exception text and exactly one attempted
submission. -/
theorem claim_C6_downstream_errors_witness :
    (send_reward_route ethFailWorld ⟨some "0xAbCd", none⟩).1 =
      ⟨500, [("error", "Failed to send reward: rpc down")]⟩ ∧
    ((send_reward_route ethFailWorld
        ⟨some "0xAbCd", none⟩).2.filter isSubmitCall).length = 1 :=
  (claim_C6_downstream_errors ethFailWorld "0xAbCd" none "rpc down"
    (by decide)).2.1 "0xWallet" rfl rfl rfl

/-- C7: the balance checker returns 0 whenever the query fails — a raised
exception, a non-200 response, or no entry matching the native asset — and
otherwise returns the matching entry's base-unit amount divided by 10 to the
reported decimal count. -/
theorem claim_C7_balance_defaults :
    (∀ msg, check_eth_balance (.raises msg) = 0) ∧
    (∀ s bs, s ≠ 200 → check_eth_balance (.responds s bs) = 0) ∧
    (∀ bs, bs.find? isEthEntry = none →
        check_eth_balance (.responds 200 bs) = 0) ∧
    (∀ bs b, bs.find? isEthEntry = some b →
        check_eth_balance (.responds 200 bs) =
          (b.amount.amount.getD 0 : ℚ) / (10 : ℚ) ^ (b.amount.decimals.getD 18)) := by
  refine ⟨fun msg => rfl, fun s bs hs => ?_, fun bs hf => ?_, fun bs b hf => ?_⟩
  · simp only [check_eth_balance]
    rw [if_pos hs]
  · simp only [check_eth_balance]
    rw [if_neg (by decide), hf]
  · simp only [check_eth_balance]
    rw [if_neg (by decide), hf]

/-- Witness for C7: the three failure shapes at concrete inputs give 0, and a
found entry gives its converted amount. -/
theorem claim_C7_balance_defaults_witness :
    check_eth_balance (.raises "boom") = 0 ∧
    check_eth_balance (.responds 404 []) = 0 ∧
    check_eth_balance (.responds 200 []) = 0 ∧
    check_eth_balance (.responds 200 [sampleEthEntry]) =
      (sampleEthEntry.amount.amount.getD 0 : ℚ) /
        (10 : ℚ) ^ (sampleEthEntry.amount.decimals.getD 18) :=
  ⟨claim_C7_balance_defaults.1 "boom",
   claim_C7_balance_defaults.2.1 404 [] (by decide),
   claim_C7_balance_defaults.2.2.1 [] rfl,
   claim_C7_balance_defaults.2.2.2 [sampleEthEntry] sampleEthEntry (by decide)⟩

/-- Counterexample to C8: a request without the recipient field is answered
with 400, but the body is the error message about the missing address, not
the message naming both fields that the claim states. -/
theorem claim_C8_cex :
    (send_reward_route emptyBalanceWorld ⟨none, some (.num 1)⟩).1.status = 400 ∧
    (send_reward_route emptyBalanceWorld ⟨none, some (.num 1)⟩).1.body =
      [("error", "Missing `to` address")] ∧
    (send_reward_route emptyBalanceWorld ⟨none, some (.num 1)⟩).1.body ≠
      [("error", "Missing `to` or `amount`")] :=
  ⟨rfl, rfl, by decide⟩

/-- C8 amended: for every POST /send request with no recipient field the
response is exactly status 400 with the single body field error set to the
message about the missing address, and no downstream call is made. -/
theorem claim_C8_missing_to_body (w : World) (amt : Option JsonVal) :
    send_reward_route w ⟨none, amt⟩ =
      (⟨400, [("error", "Missing `to` address")]⟩, []) := rfl

/-- Witness for the amended C8 at a concrete world. -/
theorem claim_C8_missing_to_body_witness :
    send_reward_route emptyBalanceWorld ⟨none, none⟩ =
      (⟨400, [("error", "Missing `to` address")]⟩, []) :=
  claim_C8_missing_to_body emptyBalanceWorld none

/-- C9: wallet provisioning is idempotent — two sequential calls to
get_or_create_wallet return the same address and leave the platform state of
the second call equal to that of the first, and the provisioned name-address
binding is recorded stably in the platform state. -/
theorem claim_C9_idempotent_provisioning (p : WalletPlatform) :
    (get_or_create_wallet (get_or_create_wallet p).2).1 =
      (get_or_create_wallet p).1 ∧
    (get_or_create_wallet (get_or_create_wallet p).2).2 =
      (get_or_create_wallet p).2 ∧
    (get_or_create_wallet p).2.accounts.lookup WALLET_NAME =
      some (get_or_create_wallet p).1 := by
  unfold get_or_create_wallet get_or_create_account
  rcases h : p.accounts.lookup WALLET_NAME with _ | addr
  · simp [h, List.lookup]
  · simp [h]

/-- Witness for C9 at the empty platform. -/
theorem claim_C9_idempotent_provisioning_witness :
    (get_or_create_wallet (get_or_create_wallet ⟨[], 0⟩).2).1 =
      (get_or_create_wallet ⟨[], 0⟩).1 :=
  (claim_C9_idempotent_provisioning ⟨[], 0⟩).1

/-- C10: whenever the balance query fails — it raises, returns a non-200
status, or returns no entry matching the native asset — check_eth_balance
returns 0 and the dispatcher takes the native-ETH new-user path, so the USDC
submission is never attempted on a failed balance check. -/
theorem claim_C10_failed_balance_eth_path (w : World) (a : String)
    (amt : Option JsonVal) (addr : String) (h1 : a ≠ "")
    (hw : w.walletResult = .ok addr)
    (hfail : (∃ m, w.balanceOutcome = .raises m) ∨
      (∃ s bs, w.balanceOutcome = .responds s bs ∧ s ≠ 200) ∨
      (∃ bs, w.balanceOutcome = .responds 200 bs ∧ bs.find? isEthEntry = none)) :
    check_eth_balance w.balanceOutcome = 0 ∧
    (send_reward_route w ⟨some a, amt⟩).2 =
      [.getWallet, .balanceQuery, .submitTx addr a none ethRewardWei NETWORK] := by
  have hb : check_eth_balance w.balanceOutcome = 0 := by
    rcases hfail with ⟨m, hm⟩ | ⟨s, bs, hm, hs⟩ | ⟨bs, hm, hf⟩
    · rw [hm]
      rfl
    · rw [hm]
      simp only [check_eth_balance]
      rw [if_pos hs]
    · rw [hm]
      simp only [check_eth_balance]
      rw [if_neg (by decide), hf]
  exact ⟨hb, route_eth_trace w a amt addr h1 hw hb⟩

/-- Witness for C10: a raising balance query at a concrete world takes the
ETH path. -/
theorem claim_C10_failed_balance_eth_path_witness :
    check_eth_balance raisingBalanceWorld.balanceOutcome = 0 ∧
    (send_reward_route raisingBalanceWorld ⟨some "0xAbCd", none⟩).2 =
      [.getWallet, .balanceQuery,
        .submitTx "0xWallet" "0xAbCd" none ethRewardWei NETWORK] :=
  claim_C10_failed_balance_eth_path raisingBalanceWorld "0xAbCd" none
    "0xWallet" (by decide) rfl (Or.inl ⟨"boom", rfl⟩)

end P2D
